import Mathlib

/-!
Verification development for the recursive container-serialization engine
of an orjson-style JSON serializer (`src/serialize/per_type/list.rs`):
`ZeroListSerializer` and `ListTupleSerializer` with its two construction
entry points (`from_list`, `from_tuple`), its two build modes
(the default build and the `Py_GIL_DISABLED` build), the recursion-limit
check, the empty-container fast path, and the per-element type dispatch.

External collaborators (the type classifier's internal rules, the leaf
serializers, the mapping serializer, the fallback hook) are modelled at
their interface: each leaf-like element carries the byte output or error
that its external serializer produces for it.
-/

set_option maxRecDepth 4000

namespace OrjsonList

/-- Serialization errors.  `recursionLimit` mirrors
`SerializeError::RecursionLimit`; `ext` stands for any error surfaced
verbatim by an external leaf / mapping / fallback serializer, identified
by an abstract code. -/
inductive SError where
  | recursionLimit
  | ext (code : Nat)
  deriving DecidableEq, Repr

/-- Modelled from the spec: `SerializerState` (an immutable options bitset
plus a recursion-depth counter) lives in `src/serialize/state.rs`, which is
not part of the provided excerpt.  The spec describes it as
`{ options: opaque bitset, depth: integer }`. -/
structure SerializerState where
  opts : Nat
  depth : Nat
  deriving DecidableEq, Repr

/-- Modelled from the spec: the fixed configured maximum recursion depth.
The excerpt does not give the numeric value; any fixed positive constant
is faithful to "compared against a fixed maximum". -/
def RECURSION_LIMIT : Nat := 255

/-- Modelled from the spec: `state.recursion_limit()` is true when the
depth "has reached the configured maximum". -/
def SerializerState.recursion_limit (s : SerializerState) : Bool :=
  RECURSION_LIMIT ≤ s.depth

/-- Modelled from the spec: `state.copy_for_recursive_call()` returns the
input state with depth "increased by exactly one per recursive descent
into a nested container"; the options are immutable. -/
def SerializerState.copy_for_recursive_call (s : SerializerState) : SerializerState :=
  { s with depth := s.depth + 1 }

/-- The closed enumeration of semantic kinds returned by the type
classifier (`ObType` in `src/serialize/obtype.rs`), exactly the tags
matched in `ListTupleSerializer::serialize`. -/
inductive ObType where
  | str | strSubclass | intTag | noneTag | floatTag | boolTag
  | datetime | date | time | uuid
  | dict | list | tuple
  | dataclass | enumTag | numpyArray | numpyScalar | fragment | unknown
  deriving DecidableEq, Repr

/-- Leaf kinds whose branch in the dispatch uses `?` (the external
serializer may fail): `Str`, `StrSubclass`, `Int`, `Float`, `Datetime`,
`Date`, `Time`, `Dict`, `Dataclass`, `Enum`, `NumpyArray`, `NumpyScalar`,
`Fragment`, `Unknown`. -/
inductive FalKind where
  | str | strSubclass | intTag | floatTag | datetime | date | time
  | dict | dataclass | enumTag | numpyArray | numpyScalar | fragment | unknown
  deriving DecidableEq, Repr

/-- Leaf kinds whose branch in the dispatch unwraps the result (the
external serializer is infallible): `None`, `Bool`, `Uuid`. -/
inductive InfKind where
  | noneTag | boolTag | uuid
  deriving DecidableEq, Repr

/-- A host object, as far as the container serializer observes it.
Leaf-like objects (everything the dispatch does not recurse into through
`ListTupleSerializer`) carry the byte output, or the error, that their
external serializer produces for them; `pylist` and `pytuple` are the two
sequence shapes walked by `ListTupleSerializer` itself. -/
inductive PyObj where
  | leaf (k : FalKind) (out : Except SError (List UInt8))
  | infLeaf (k : InfKind) (out : List UInt8)
  | pylist (elems : List PyObj)
  | pytuple (elems : List PyObj)

def FalKind.toObType : FalKind → ObType
  | .str => .str
  | .strSubclass => .strSubclass
  | .intTag => .intTag
  | .floatTag => .floatTag
  | .datetime => .datetime
  | .date => .date
  | .time => .time
  | .dict => .dict
  | .dataclass => .dataclass
  | .enumTag => .enumTag
  | .numpyArray => .numpyArray
  | .numpyScalar => .numpyScalar
  | .fragment => .fragment
  | .unknown => .unknown

def InfKind.toObType : InfKind → ObType
  | .noneTag => .noneTag
  | .boolTag => .boolTag
  | .uuid => .uuid

/-- Modelled from the spec: the Type Classifier is an external
collaborator with interface `classify(object_ref, options) -> Kind`,
"total over the fixed Kind enumeration, side-effect-free"; here the kind
is determined by the node's recorded kind, and the options argument is
accepted as in `pyobject_to_obtype(value, opts)`. -/
def pyobject_to_obtype (v : PyObj) (_opts : Nat) : ObType :=
  match v with
  | .leaf k _ => k.toObType
  | .infLeaf k _ => k.toObType
  | .pylist _ => .list
  | .pytuple _ => .tuple

/-- The element references of a sequence object (the backing storage read
through `data_ptr` / the snapshot); `Py_SIZE` of the object is the length
of this list. -/
def objElems : PyObj → List PyObj
  | .pylist elems => elems
  | .pytuple elems => elems
  | _ => []

/-- The result recorded for a fallible external serializer at a leaf. -/
def leafResult : PyObj → Except SError (List UInt8)
  | .leaf _ out => out
  | .infLeaf _ out => .ok out
  | _ => .ok []

/-- The bytes recorded for an infallible external serializer at a leaf. -/
def infLeafResult : PyObj → List UInt8
  | .infLeaf _ out => out
  | _ => []

/-- The two build configurations of the source file:
`gil` is `cfg(not(Py_GIL_DISABLED))` (exclusive-owner mode, borrowed
`data_ptr` view) and `gilDisabled` is `cfg(Py_GIL_DISABLED)`
(shared-mutation mode, owned snapshot).  The two builds differ in the
dispatch only at the `ObType::List` arm: the `gil` build short-circuits an
empty nested list, the `gilDisabled` build does not. -/
inductive BuildMode where
  | gil
  | gilDisabled
  deriving DecidableEq, Repr

/-- The output of `ZeroListSerializer::serialize`, which emits
`serialize_bytes(b"[]")`: exactly the two bytes `[` `]`. -/
def zeroListSerialize : List UInt8 := [91, 93]

/-- The struct `ListTupleSerializer`: the normalized internal shape shared
by both entry points — element access (`items`), `len`, the state with
depth already incremented for this nesting level, and the optional
fallback (`default` in the source). -/
structure ListTupleSerializer where
  items : List PyObj
  state : SerializerState
  dflt : Option Nat
  len : Nat

/-- Constructor `ListTupleSerializer::from_list`: reads the element
storage and length from the list object and stores
`state.copy_for_recursive_call()`. -/
def ListTupleSerializer.from_list (elems : List PyObj) (state : SerializerState)
    (dflt : Option Nat) : ListTupleSerializer :=
  { items := elems
    len := elems.length
    state := state.copy_for_recursive_call
    dflt := dflt }

/-- Constructor `ListTupleSerializer::from_tuple`: reads the element
storage and length from the tuple object and stores
`state.copy_for_recursive_call()`.  Both entry points normalize to the
same internal shape. -/
def ListTupleSerializer.from_tuple (elems : List PyObj) (state : SerializerState)
    (dflt : Option Nat) : ListTupleSerializer :=
  { items := elems
    len := elems.length
    state := state.copy_for_recursive_call
    dflt := dflt }

/-- A fallible dispatch arm `seq.serialize_element(&...)?`: on success the
element's bytes are written, on failure the error is propagated verbatim
and nothing is written by the failing leaf. -/
def seqElementFallible (r : Except SError (List UInt8)) : List UInt8 × Option SError :=
  match r with
  | .ok bs => (bs, none)
  | .error e => ([], some e)

theorem sizeOf_objElems_lt (v : PyObj) : sizeOf (objElems v) < sizeOf v := by
  cases v with
  | leaf k out => cases k <;> cases out <;> simp [objElems] <;> omega
  | infLeaf k out => cases k <;> simp [objElems] <;> omega
  | pylist elems => simp [objElems]
  | pytuple elems => simp [objElems]

mutual

/-- The body of `impl Serialize for ListTupleSerializer`: check the
recursion limit first, take the empty fast path next, otherwise open a
sequence context (`[`), emit each element in index order with `,`
separators, and close the context (`]`).  The result is the pair of the
bytes written by this call and the error, if any, that aborted it (on an
abort the bytes already written stay in the caller-owned sink). -/
def ListTupleSerializer.serialize (mode : BuildMode) (s : ListTupleSerializer) :
    List UInt8 × Option SError :=
  if s.state.recursion_limit then
    ([], some SError.recursionLimit)
  else if s.len == 0 then
    (zeroListSerialize, none)
  else
    match serializeElems mode s.items true s.state s.dflt with
    | (bs, none) => (91 :: (bs ++ [93]), none)
    | (bs, some e) => (91 :: bs, some e)
termination_by (sizeOf s.items, 1)
decreasing_by
  exact Prod.Lex.right _ (by omega)

/-- The element loop (`for idx in 0..self.len` in the default build,
`for ptr in self.items` in the `Py_GIL_DISABLED` build): a `,` separator
is written before every element other than the first; the first element
error aborts the loop and is returned as is. -/
def serializeElems (mode : BuildMode) (vs : List PyObj) (first : Bool)
    (st : SerializerState) (dflt : Option Nat) : List UInt8 × Option SError :=
  match vs with
  | [] => ([], none)
  | v :: rest =>
    let sep : List UInt8 := if first then [] else [44]
    match serializeElement mode v st dflt with
    | (bs, some e) => (sep ++ bs, some e)
    | (bs, none) =>
      match serializeElems mode rest false st dflt with
      | (bs2, r) => (sep ++ (bs ++ bs2), r)
termination_by (sizeOf vs, 0)
decreasing_by
  · simp_wf
    exact Prod.Lex.left _ _ (by omega)
  · simp_wf
    exact Prod.Lex.left _ _ (by omega)

/-- Serialization of one element of the loop body: classify the element
with the current state's options (`pyobject_to_obtype(value,
self.state.opts())`) and dispatch on the resulting kind. -/
def serializeElement (mode : BuildMode) (v : PyObj) (st : SerializerState)
    (dflt : Option Nat) : List UInt8 × Option SError :=
  serializeDispatch mode (pyobject_to_obtype v st.opts) v st dflt
termination_by (sizeOf v, 2)
decreasing_by
  exact Prod.Lex.right _ (by omega)

/-- The per-element dispatch arms of `match pyobject_to_obtype(value,
opts)`.  Leaf-like arms delegate to the external serializer recorded at
the node (`?` arms may fail, `unwrap` arms cannot); the `List` and
`Tuple` arms recurse through `ListTupleSerializer` built from
`self.state` and `self.default`.  In the default (`gil`) build both the
`List` and the `Tuple` arm short-circuit an empty nested sequence
through `ZeroListSerializer`; in the `gilDisabled` build only the
`Tuple` arm does, and an empty nested list constructs a full nested
serializer. -/
def serializeDispatch (mode : BuildMode) (t : ObType) (v : PyObj)
    (st : SerializerState) (dflt : Option Nat) : List UInt8 × Option SError :=
  match t with
  | ObType.str => seqElementFallible (leafResult v)
  | ObType.strSubclass => seqElementFallible (leafResult v)
  | ObType.intTag => seqElementFallible (leafResult v)
  | ObType.noneTag => (infLeafResult v, none)
  | ObType.floatTag => seqElementFallible (leafResult v)
  | ObType.boolTag => (infLeafResult v, none)
  | ObType.datetime => seqElementFallible (leafResult v)
  | ObType.date => seqElementFallible (leafResult v)
  | ObType.time => seqElementFallible (leafResult v)
  | ObType.uuid => (infLeafResult v, none)
  | ObType.dict => seqElementFallible (leafResult v)
  | ObType.list =>
    match mode with
    | BuildMode.gil =>
      if (objElems v).length == 0 then (zeroListSerialize, none)
      else
        ListTupleSerializer.serialize mode
          (ListTupleSerializer.from_list (objElems v) st dflt)
    | BuildMode.gilDisabled =>
      ListTupleSerializer.serialize mode
        (ListTupleSerializer.from_list (objElems v) st dflt)
  | ObType.tuple =>
    if (objElems v).length == 0 then (zeroListSerialize, none)
    else
      ListTupleSerializer.serialize mode
        (ListTupleSerializer.from_tuple (objElems v) st dflt)
  | ObType.dataclass => seqElementFallible (leafResult v)
  | ObType.enumTag => seqElementFallible (leafResult v)
  | ObType.numpyArray => seqElementFallible (leafResult v)
  | ObType.numpyScalar => seqElementFallible (leafResult v)
  | ObType.fragment => seqElementFallible (leafResult v)
  | ObType.unknown => seqElementFallible (leafResult v)
termination_by (sizeOf v, 0)
decreasing_by
  all_goals
    exact Prod.Lex.left _ _ (by
      simp [ListTupleSerializer.from_list, ListTupleSerializer.from_tuple]
      exact sizeOf_objElems_lt v)

end

/-! ### Derived observables and helper notions -/

/-- The bytes that serializing one element writes (separator excluded). -/
def emitted (mode : BuildMode) (st : SerializerState) (dflt : Option Nat)
    (v : PyObj) : List UInt8 :=
  (serializeElement mode v st dflt).1

/-- The error, if any, that serializing one element raises. -/
def elemErr (mode : BuildMode) (st : SerializerState) (dflt : Option Nat)
    (v : PyObj) : Option SError :=
  (serializeElement mode v st dflt).2

/-- The bytes recorded at a leaf-like element for its external serializer
when that serializer succeeds. -/
def elemBytes (v : PyObj) : List UInt8 :=
  match leafResult v with
  | .ok bs => bs
  | .error _ => []

/-- The directly-supported scalar kinds of the dispatch: the string,
string-subtype, integer, none/null, float, boolean, timestamp, date,
time, unique-identifier and numeric-scalar tags. -/
def isScalarTag : ObType → Bool
  | .str | .strSubclass | .intTag | .noneTag | .floatTag | .boolTag
  | .datetime | .date | .time | .uuid | .numpyScalar => true
  | _ => false

/-- Bytes of a run of elements each preceded by a `,` separator. -/
def joinRest (bss : List (List UInt8)) : List UInt8 :=
  (bss.map (fun bs => 44 :: bs)).flatten

/-- Bytes of a run of elements with `,` separators between them (the
first element has no separator). -/
def joinFirst : List (List UInt8) → List UInt8
  | [] => []
  | bs :: rest => bs ++ joinRest rest

/-- Bytes of a run of elements, with the separator placement selected by
whether the run starts at the first position of the sequence context. -/
def joinSep (first : Bool) (bss : List (List UInt8)) : List UInt8 :=
  if first then joinFirst bss else joinRest bss

/-- The serializer state produced by a chain of nested constructions
along a path of nested containers: the root call constructs its
serializer from the input state, and every descent into a nested
container constructs the nested serializer from the current serializer's
own (value-copied) state; each construction stores
`state.copy_for_recursive_call()`. -/
def stateOnPath (st : SerializerState) (path : List Nat) : SerializerState :=
  path.foldl (fun s _ => s.copy_for_recursive_call) st.copy_for_recursive_call

/-! ### Shared-ownership counts for the `Py_GIL_DISABLED` snapshot -/

/-- Shared-ownership (reference) counts of the host objects, indexed by
object identity. -/
abbrev RefCounts := Nat → Int

/-- The effect of `Py_INCREF` on the counts. -/
def Py_INCREF (rc : RefCounts) (v : Nat) : RefCounts :=
  fun x => if x = v then rc x + 1 else rc x

/-- The effect of `Py_DECREF` on the counts. -/
def Py_DECREF (rc : RefCounts) (v : Nat) : RefCounts :=
  fun x => if x = v then rc x - 1 else rc x

/-- Snapshot construction `from_list_snapshot` (`Py_GIL_DISABLED` build):
under the critical section scoped to the container, read the length and
storage, and for every index acquire an owned reference (`Py_INCREF`) to
that element.  Elements are identified here by object identity; the
result is the snapshot (the identity list in index order) together with
the updated counts. -/
def from_list_snapshot (elems : List Nat) (rc : RefCounts) :
    List Nat × RefCounts :=
  (elems, elems.foldl Py_INCREF rc)

/-- Snapshot construction `from_tuple_snapshot` (`Py_GIL_DISABLED`
build): same shape as the list snapshot, without the critical section
(tuples are fixed-length). -/
def from_tuple_snapshot (elems : List Nat) (rc : RefCounts) :
    List Nat × RefCounts :=
  (elems, elems.foldl Py_INCREF rc)

/-- The body of `impl Drop for ListTupleSerializer` (`Py_GIL_DISABLED`
build): `Py_DECREF` every snapshotted item, once each, unconditionally
when the serializer is discarded. -/
def dropItems (items : List Nat) (rc : RefCounts) : RefCounts :=
  items.foldl Py_DECREF rc

/-- One full lifecycle of a snapshot-mode serializer: construct (taking
the snapshot and incrementing the counts), let `serialize` produce
whatever result it produces — `result` ranges over both the success and
the failure outcomes — and drop the serializer when it is discarded. -/
def snapshotLifecycle (elems : List Nat) (rc : RefCounts)
    (result : List UInt8 × Option SError) :
    (List UInt8 × Option SError) × RefCounts :=
  (result,
    dropItems (from_list_snapshot elems rc).1 (from_list_snapshot elems rc).2)

/-! ### Helper lemmas -/

theorem from_tuple_eq_from_list (elems : List PyObj) (st : SerializerState)
    (d : Option Nat) :
    ListTupleSerializer.from_tuple elems st d
      = ListTupleSerializer.from_list elems st d := rfl

theorem serializeElement_eq_pair (mode : BuildMode) (st : SerializerState)
    (dflt : Option Nat) (v : PyObj) :
    serializeElement mode v st dflt
      = (emitted mode st dflt v, elemErr mode st dflt v) := rfl

theorem joinFirst_eq_intercalate (bss : List (List UInt8)) :
    joinFirst bss = List.intercalate [44] bss := by
  induction bss with
  | nil => rfl
  | cons bs rest ih =>
    cases rest with
    | nil => simp [joinFirst, joinRest, List.intercalate, List.intersperse]
    | cons b2 t =>
      have h2 : joinFirst (b2 :: t) = List.intercalate [44] (b2 :: t) := ih
      simp only [joinFirst, joinRest, List.map_cons, List.flatten_cons,
        List.intercalate, List.intersperse] at h2 ⊢
      simp [← h2]

theorem serializeElems_ok (mode : BuildMode) (st : SerializerState)
    (dflt : Option Nat) (vs : List PyObj)
    (h : ∀ v ∈ vs, elemErr mode st dflt v = none) (first : Bool) :
    serializeElems mode vs first st dflt
      = (joinSep first (vs.map (emitted mode st dflt)), none) := by
  induction vs generalizing first with
  | nil => rw [serializeElems]; cases first <;> simp [joinSep, joinFirst, joinRest]
  | cons v rest ih =>
    have hv : serializeElement mode v st dflt = (emitted mode st dflt v, none) := by
      rw [serializeElement_eq_pair, h v (by simp)]
    rw [serializeElems, hv, ih (fun x hx => h x (by simp [hx])) false]
    cases first <;> simp [joinSep, joinFirst, joinRest]

theorem serializeElems_error (mode : BuildMode) (st : SerializerState)
    (dflt : Option Nat) (e : SError) (pre : List PyObj) (v : PyObj)
    (post : List PyObj)
    (hpre : ∀ p ∈ pre, elemErr mode st dflt p = none)
    (hv : elemErr mode st dflt v = some e) (first : Bool) :
    serializeElems mode (pre ++ v :: post) first st dflt
      = (joinSep first ((pre ++ [v]).map (emitted mode st dflt)), some e) := by
  induction pre generalizing first with
  | nil =>
    have hv2 : serializeElement mode v st dflt = (emitted mode st dflt v, some e) := by
      rw [serializeElement_eq_pair, hv]
    rw [List.nil_append, serializeElems, hv2]
    cases first <;> simp [joinSep, joinFirst, joinRest]
  | cons p pre' ih =>
    have hp : serializeElement mode p st dflt = (emitted mode st dflt p, none) := by
      rw [serializeElement_eq_pair, hpre p (by simp)]
    rw [List.cons_append, serializeElems, hp,
      ih (fun x hx => hpre x (by simp [hx])) false]
    cases first <;> simp [joinSep, joinFirst, joinRest]

theorem serializeElement_leaf_ok (mode : BuildMode) (st : SerializerState)
    (dflt : Option Nat) (v : PyObj) (bs : List UInt8)
    (hl : pyobject_to_obtype v st.opts ≠ ObType.list)
    (ht : pyobject_to_obtype v st.opts ≠ ObType.tuple)
    (hok : leafResult v = Except.ok bs) :
    serializeElement mode v st dflt = (bs, none) := by
  cases v with
  | leaf k out =>
    cases k <;> simp_all [serializeElement, serializeDispatch, pyobject_to_obtype,
      FalKind.toObType, seqElementFallible, leafResult]
  | infLeaf k out =>
    cases k <;> simp_all [serializeElement, serializeDispatch, pyobject_to_obtype,
      InfKind.toObType, infLeafResult, leafResult]
  | pylist elems => simp [pyobject_to_obtype] at hl
  | pytuple elems => simp [pyobject_to_obtype] at ht

theorem isScalarTag_ne_container (t : ObType) (h : isScalarTag t = true) :
    t ≠ ObType.list ∧ t ≠ ObType.tuple := by
  cases t <;> simp_all [isScalarTag]

theorem serialize_main (mode : BuildMode) (s : ListTupleSerializer)
    (hnl : s.state.recursion_limit = false) (hlen : s.len ≠ 0) :
    ListTupleSerializer.serialize mode s
      = (match serializeElems mode s.items true s.state s.dflt with
        | (bs, none) => (91 :: (bs ++ [93]), none)
        | (bs, some e) => (91 :: bs, some e)) := by
  rw [ListTupleSerializer.serialize, hnl]
  simp [hlen]

theorem foldl_Py_INCREF (elems : List Nat) (rc : RefCounts) (r : Nat) :
    elems.foldl Py_INCREF rc r = rc r + (elems.count r : Int) := by
  induction elems generalizing rc with
  | nil => simp
  | cons a t ih =>
    rw [List.foldl_cons, ih]
    by_cases hra : r = a
    · subst hra
      simp only [Py_INCREF, if_pos rfl, List.count_cons_self]
      push_cast
      ring
    · simp only [Py_INCREF, if_neg hra]
      simp [List.count_cons, hra]

theorem foldl_Py_DECREF (elems : List Nat) (rc : RefCounts) (r : Nat) :
    elems.foldl Py_DECREF rc r = rc r - (elems.count r : Int) := by
  induction elems generalizing rc with
  | nil => simp
  | cons a t ih =>
    rw [List.foldl_cons, ih]
    by_cases hra : r = a
    · subst hra
      simp only [Py_DECREF, if_pos rfl, List.count_cons_self]
      push_cast
      ring
    · simp only [Py_DECREF, if_neg hra]
      simp [List.count_cons, hra]

theorem serialize_at_limit (mode : BuildMode) (s : ListTupleSerializer)
    (h : s.state.recursion_limit = true) :
    ListTupleSerializer.serialize mode s = ([], some SError.recursionLimit) := by
  simp [ListTupleSerializer.serialize, h]

theorem serialize_below_limit_ne (mode : BuildMode) (s : ListTupleSerializer)
    (h : s.state.recursion_limit = false) :
    ListTupleSerializer.serialize mode s ≠ ([], some SError.recursionLimit) := by
  rw [ListTupleSerializer.serialize]
  simp only [h, Bool.false_eq_true, if_false]
  by_cases hl : s.len == 0
  · simp [hl, zeroListSerialize]
  · simp only [hl, Bool.false_eq_true, if_false]
    rcases hres : serializeElems mode s.items true s.state s.dflt with ⟨bs, r⟩
    cases r <;> simp

/-! ### The claims -/

/-- C1: for every sequence container (list-like or tuple-like) and every
serialization state whose depth has reached the configured maximum,
`serialize` fails immediately with the recursion-limit error, performs no
element access (the failure result is one and the same for every element
list) and emits no output bytes; at any depth strictly below the maximum
the recursion-limit error is not raised by this entry check (the entry
check's failure signature — no bytes emitted together with the
recursion-limit error — cannot occur). -/
theorem serialize_recursion_limit_check (mode : BuildMode) (elems : List PyObj)
    (st : SerializerState) (d : Option Nat) :
    ((ListTupleSerializer.from_list elems st d).state.recursion_limit = true →
      (ListTupleSerializer.from_list elems st d).serialize mode
        = ([], some SError.recursionLimit)) ∧
    ((ListTupleSerializer.from_tuple elems st d).state.recursion_limit = true →
      (ListTupleSerializer.from_tuple elems st d).serialize mode
        = ([], some SError.recursionLimit)) ∧
    ((ListTupleSerializer.from_list elems st d).state.recursion_limit = false →
      (ListTupleSerializer.from_list elems st d).serialize mode
        ≠ ([], some SError.recursionLimit)) ∧
    ((ListTupleSerializer.from_tuple elems st d).state.recursion_limit = false →
      (ListTupleSerializer.from_tuple elems st d).serialize mode
        ≠ ([], some SError.recursionLimit)) :=
  ⟨fun h => serialize_at_limit mode _ h,
   fun h => serialize_at_limit mode _ h,
   fun h => serialize_below_limit_ne mode _ h,
   fun h => serialize_below_limit_ne mode _ h⟩

/-- Witness for C1: at depth 255 the serializer fails with the
recursion-limit error and emits nothing; at depth 0 the entry check does
not fire. -/
theorem serialize_recursion_limit_check_witness :
    (ListTupleSerializer.from_list [] ⟨0, 255⟩ none).serialize BuildMode.gil
      = ([], some SError.recursionLimit) ∧
    (ListTupleSerializer.from_list [] ⟨0, 0⟩ none).serialize BuildMode.gil
      ≠ ([], some SError.recursionLimit) :=
  ⟨(serialize_recursion_limit_check BuildMode.gil [] ⟨0, 255⟩ none).1 (by decide),
   (serialize_recursion_limit_check BuildMode.gil [] ⟨0, 0⟩ none).2.2.1 (by decide)⟩

/-- C2: for every sequence container of length 0 (either variant), when
the recursion limit has not been reached, the output of `serialize` is
exactly the two bytes `[` `]` (91, 93), with no whitespace and no
error. -/
theorem serialize_empty_container (mode : BuildMode) (st : SerializerState)
    (d : Option Nat) :
    ((ListTupleSerializer.from_list [] st d).state.recursion_limit = false →
      (ListTupleSerializer.from_list [] st d).serialize mode = ([91, 93], none)) ∧
    ((ListTupleSerializer.from_tuple [] st d).state.recursion_limit = false →
      (ListTupleSerializer.from_tuple [] st d).serialize mode = ([91, 93], none)) := by
  constructor <;> intro h <;>
    simp only [ListTupleSerializer.from_list, ListTupleSerializer.from_tuple] at h <;>
    simp [ListTupleSerializer.serialize, h, ListTupleSerializer.from_list,
      ListTupleSerializer.from_tuple, zeroListSerialize]

/-- Witness for C2 at depth 0. -/
theorem serialize_empty_container_witness :
    (ListTupleSerializer.from_list [] ⟨0, 0⟩ none).serialize BuildMode.gil
      = ([91, 93], none) ∧
    (ListTupleSerializer.from_tuple [] ⟨0, 0⟩ none).serialize BuildMode.gilDisabled
      = ([91, 93], none) :=
  ⟨(serialize_empty_container BuildMode.gil ⟨0, 0⟩ none).1 (by decide),
   (serialize_empty_container BuildMode.gilDisabled ⟨0, 0⟩ none).2 (by decide)⟩

/-- C6: for every sequence of element references, every serialization
state and every fallback, serializing the sequence as a mutable-length
(list-like) container and as a fixed-length (tuple-like) container
produce the same result — both constructors normalize to the same
internal shape, and `serialize` on the two is identical (same output
bytes on success and same error on failure). -/
theorem list_tuple_same_serialization (mode : BuildMode) (elems : List PyObj)
    (st : SerializerState) (d : Option Nat) :
    ListTupleSerializer.from_list elems st d
      = ListTupleSerializer.from_tuple elems st d ∧
    (ListTupleSerializer.from_list elems st d).serialize mode
      = (ListTupleSerializer.from_tuple elems st d).serialize mode :=
  ⟨rfl, rfl⟩

/-- C9: serialization is deterministic — two runs of `serialize` on the
same container, state and fallback produce identical results, identical
bytes on success and the same error on failure. -/
theorem serialize_deterministic (mode : BuildMode) (elems : List PyObj)
    (st : SerializerState) (d : Option Nat) (r1 r2 : List UInt8 × Option SError)
    (h1 : r1 = (ListTupleSerializer.from_list elems st d).serialize mode)
    (h2 : r2 = (ListTupleSerializer.from_list elems st d).serialize mode) :
    r1 = r2 :=
  h1.trans h2.symm

/-- C3: for every sequence container of length N whose elements all
classify (under the current state's options) as directly-supported
scalar kinds and whose leaf serializers all succeed, the output of
`serialize` is a JSON array of exactly the N leaf values — one value per
element, in original index order, comma-separated with no trailing
comma — and no error. -/
theorem serialize_scalar_container (mode : BuildMode) (elems : List PyObj)
    (st : SerializerState) (d : Option Nat)
    (hnl : (ListTupleSerializer.from_list elems st d).state.recursion_limit = false)
    (hscalar : ∀ v ∈ elems,
      isScalarTag (pyobject_to_obtype v
        (ListTupleSerializer.from_list elems st d).state.opts) = true ∧
      ∃ bs, leafResult v = Except.ok bs) :
    (ListTupleSerializer.from_list elems st d).serialize mode
      = (91 :: (List.intercalate [44] (elems.map elemBytes) ++ [93]), none) := by
  have helem : ∀ v ∈ elems,
      serializeElement mode v st.copy_for_recursive_call d = (elemBytes v, none) := by
    intro v hv
    obtain ⟨hsc, bs, hok⟩ := hscalar v hv
    have hne := isScalarTag_ne_container _ hsc
    have hser := serializeElement_leaf_ok mode st.copy_for_recursive_call d v bs
      hne.1 hne.2 hok
    rw [hser]
    simp [elemBytes, hok]
  rcases elems with _ | ⟨v0, rest⟩
  · simpa using (serialize_empty_container mode st d).1 hnl
  · have hlen : (ListTupleSerializer.from_list (v0 :: rest) st d).len ≠ 0 := by
      simp [ListTupleSerializer.from_list]
    rw [serialize_main mode _ hnl hlen]
    have hok2 : ∀ v ∈ (v0 :: rest),
        elemErr mode st.copy_for_recursive_call d v = none := by
      intro v hv
      simp [elemErr, helem v hv]
    have hitems : (ListTupleSerializer.from_list (v0 :: rest) st d).items
        = v0 :: rest := rfl
    have hstate : (ListTupleSerializer.from_list (v0 :: rest) st d).state
        = st.copy_for_recursive_call := rfl
    have hdflt : (ListTupleSerializer.from_list (v0 :: rest) st d).dflt = d := rfl
    rw [hitems, hstate, hdflt, serializeElems_ok mode _ d _ hok2 true]
    have hmap : (v0 :: rest).map (emitted mode st.copy_for_recursive_call d)
        = (v0 :: rest).map elemBytes := by
      apply List.map_congr_left
      intro v hv
      simp [emitted, helem v hv]
    simp [joinSep, joinFirst_eq_intercalate, hmap]

/-- Witness for C3: a container of one integer-classified element whose
leaf serializer emits the byte of the digit 1. -/
theorem serialize_scalar_container_witness :
    (ListTupleSerializer.from_list [PyObj.leaf FalKind.intTag (Except.ok [49])]
        ⟨0, 0⟩ none).serialize BuildMode.gil
      = (91 :: (List.intercalate [44]
          ([PyObj.leaf FalKind.intTag (Except.ok [49])].map elemBytes) ++ [93]),
        none) :=
  serialize_scalar_container BuildMode.gil _ ⟨0, 0⟩ none (by decide)
    (by
      intro v hv
      rw [List.mem_singleton] at hv
      subst hv
      exact ⟨by decide, [49], rfl⟩)

/-- C4: for every sequence container, if serializing the element at index
i (that is, the element after a prefix `pre` of i elements that serialize
without error) returns an error, then `serialize` returns that error
unchanged, serializes no element at any index greater than i (the result
does not depend on the suffix `post`), and skips no element: the emitted
bytes are the opening bracket followed by the comma-separated outputs of
the first i elements and the bytes the failing element emitted. -/
theorem serialize_first_error_aborts (mode : BuildMode) (pre : List PyObj)
    (v : PyObj) (post : List PyObj) (st : SerializerState) (d : Option Nat)
    (e : SError)
    (hnl : (ListTupleSerializer.from_list (pre ++ v :: post) st d).state.recursion_limit
      = false)
    (hpre : ∀ p ∈ pre, (serializeElement mode p st.copy_for_recursive_call d).2 = none)
    (hv : (serializeElement mode v st.copy_for_recursive_call d).2 = some e) :
    (ListTupleSerializer.from_list (pre ++ v :: post) st d).serialize mode
      = (91 :: List.intercalate [44]
          ((pre ++ [v]).map
            (fun x => (serializeElement mode x st.copy_for_recursive_call d).1)),
        some e) := by
  have hlen : (ListTupleSerializer.from_list (pre ++ v :: post) st d).len ≠ 0 := by
    simp [ListTupleSerializer.from_list]
  rw [serialize_main mode _ hnl hlen]
  have hitems : (ListTupleSerializer.from_list (pre ++ v :: post) st d).items
      = pre ++ v :: post := rfl
  have hstate : (ListTupleSerializer.from_list (pre ++ v :: post) st d).state
      = st.copy_for_recursive_call := rfl
  have hdflt : (ListTupleSerializer.from_list (pre ++ v :: post) st d).dflt = d := rfl
  rw [hitems, hstate, hdflt,
    serializeElems_error mode st.copy_for_recursive_call d e pre v post hpre hv true]
  simp only [joinSep, if_pos, joinFirst_eq_intercalate, List.map_append]
  rfl

/-- Witness for C4: a one-element container whose element's leaf
serializer fails with the external error coded 7. -/
theorem serialize_first_error_aborts_witness :
    (ListTupleSerializer.from_list [PyObj.leaf FalKind.str (Except.error (SError.ext 7))]
        ⟨0, 0⟩ none).serialize BuildMode.gil
      = (91 :: List.intercalate [44]
          ((([] : List PyObj) ++ [PyObj.leaf FalKind.str (Except.error (SError.ext 7))]).map
            (fun x => (serializeElement BuildMode.gil x
              (SerializerState.copy_for_recursive_call ⟨0, 0⟩) none).1)),
        some (SError.ext 7)) :=
  serialize_first_error_aborts BuildMode.gil []
    (PyObj.leaf FalKind.str (Except.error (SError.ext 7))) [] ⟨0, 0⟩ none
    (SError.ext 7) (by decide) (by intro p hp; cases hp)
    (by simp [serializeElement, serializeDispatch, pyobject_to_obtype,
      FalKind.toObType, seqElementFallible, leafResult])

/-- C5 counterexample: in the `Py_GIL_DISABLED` build an element that is
a zero-length nested list is not emitted via the zero-length shortcut.
At outer depth 253 the claimed shortcut would emit the two bytes `[]`
with no recursion check, producing the four success bytes `[[]]` exactly
as the `gil` build does; the `gilDisabled` build instead constructs a
full nested `ListTupleSerializer`, whose entry check fails with the
recursion-limit error. -/
theorem nested_empty_list_no_shortcut_gil_disabled :
    (ListTupleSerializer.from_list [PyObj.pylist []] ⟨0, 253⟩ none).serialize
        BuildMode.gilDisabled = ([91], some SError.recursionLimit) ∧
    (ListTupleSerializer.from_list [PyObj.pylist []] ⟨0, 253⟩ none).serialize
        BuildMode.gil = ([91, 91, 93, 93], none) := by
  constructor <;>
    simp [ListTupleSerializer.serialize, serializeElems, serializeElement,
      serializeDispatch, pyobject_to_obtype, objElems, ListTupleSerializer.from_list,
      SerializerState.recursion_limit, SerializerState.copy_for_recursive_call,
      RECURSION_LIMIT, zeroListSerialize]

/-- C5 amended: in the `gil` (exclusive-owner) build, every element
classified as a zero-length nested list or zero-length nested tuple is
emitted via the zero-length shortcut (the literal two bytes, no nested
serializer construction, for every state); in the `gilDisabled`
(shared-mutation) build this holds only for zero-length nested tuples,
while a zero-length nested list element is serialized by constructing a
full nested `ListTupleSerializer`. -/
theorem nested_empty_shortcut_amended (st : SerializerState) (d : Option Nat) :
    serializeElement BuildMode.gil (PyObj.pylist []) st d = (zeroListSerialize, none) ∧
    serializeElement BuildMode.gil (PyObj.pytuple []) st d = (zeroListSerialize, none) ∧
    serializeElement BuildMode.gilDisabled (PyObj.pytuple []) st d
      = (zeroListSerialize, none) ∧
    serializeElement BuildMode.gilDisabled (PyObj.pylist []) st d
      = (ListTupleSerializer.from_list [] st d).serialize BuildMode.gilDisabled := by
  refine ⟨?_, ?_, ?_, ?_⟩ <;>
    simp [serializeElement, serializeDispatch, pyobject_to_obtype, objElems]

theorem stateOnPath_cons (st : SerializerState) (i : Nat) (p : List Nat) :
    stateOnPath st (i :: p) = stateOnPath st.copy_for_recursive_call p := by
  simp [stateOnPath, List.foldl_cons]

/-- C7: each construction of a nested serializer stores the value-copied
state with its depth incremented by exactly one and its options
unchanged; a nested container element is serialized through a serializer
built from the current serializer's own state; consequently the state in
force at a container reached along a path of nested containers has depth
equal to the root input depth plus the nesting level of that path plus
one — a function of the path length alone, independent of the sibling
indices taken and of how many sibling containers or total objects were
visited. -/
theorem depth_tracks_nesting (mode : BuildMode) (elems : List PyObj)
    (st : SerializerState) (d : Option Nat) (path : List Nat) (v : PyObj)
    (vs : List PyObj) :
    (ListTupleSerializer.from_list elems st d).state = st.copy_for_recursive_call ∧
    (ListTupleSerializer.from_tuple elems st d).state = st.copy_for_recursive_call ∧
    st.copy_for_recursive_call.depth = st.depth + 1 ∧
    st.copy_for_recursive_call.opts = st.opts ∧
    serializeElement mode (PyObj.pylist (v :: vs)) st d
      = (ListTupleSerializer.from_list (v :: vs) st d).serialize mode ∧
    serializeElement mode (PyObj.pytuple (v :: vs)) st d
      = (ListTupleSerializer.from_tuple (v :: vs) st d).serialize mode ∧
    (stateOnPath st path).depth = st.depth + path.length + 1 ∧
    (stateOnPath st path).opts = st.opts := by
  have hdepth : ∀ (p : List Nat) (s : SerializerState),
      (stateOnPath s p).depth = s.depth + p.length + 1 ∧
      (stateOnPath s p).opts = s.opts := by
    intro p
    induction p with
    | nil =>
      intro s
      simp [stateOnPath, SerializerState.copy_for_recursive_call]
    | cons i q ih =>
      intro s
      rw [stateOnPath_cons]
      obtain ⟨h1, h2⟩ := ih s.copy_for_recursive_call
      refine ⟨?_, h2⟩
      rw [h1]
      simp [SerializerState.copy_for_recursive_call]
      omega
  refine ⟨rfl, rfl, rfl, rfl, ?_, ?_, (hdepth path st).1, (hdepth path st).2⟩ <;>
    cases mode <;>
    simp [serializeElement, serializeDispatch, pyobject_to_obtype, objElems,
      from_tuple_eq_from_list]

/-- C8: in shared-mutation (`Py_GIL_DISABLED`) mode, taking the snapshot
increments the shared-ownership count of every captured element exactly
once (for each identity, by the number of captured occurrences) before
iteration begins, and discarding the serializer decrements each exactly
once, for every outcome `result` of the `serialize` call — success or
failure alike — so the final counts equal the initial counts: nothing is
leaked or double-released. -/
theorem snapshot_refcount_balanced (elems : List Nat) (rc : RefCounts)
    (result : List UInt8 × Option SError) (r : Nat) :
    (from_list_snapshot elems rc).2 r = rc r + (elems.count r : Int) ∧
    (from_tuple_snapshot elems rc).2 r = rc r + (elems.count r : Int) ∧
    (snapshotLifecycle elems rc result).1 = result ∧
    (snapshotLifecycle elems rc result).2 r = rc r := by
  refine ⟨foldl_Py_INCREF elems rc r, foldl_Py_INCREF elems rc r, rfl, ?_⟩
  simp [snapshotLifecycle, dropItems, from_list_snapshot, foldl_Py_DECREF,
    foldl_Py_INCREF]

/-- C10: when a nested element is an empty list or tuple handled by a
zero-length shortcut branch, no nested serializer is constructed, hence
no depth increment and no recursion-limit check happen for that nesting
level: at a state whose next nesting level has reached the limit (so any
non-empty nested sequence fails with the recursion-limit error), an
empty nested sequence in a shortcut branch still serializes to the two
bytes `[]`. -/
theorem empty_shortcut_skips_depth_check (st : SerializerState) (d : Option Nat)
    (v : PyObj) (vs : List PyObj)
    (h : st.copy_for_recursive_call.recursion_limit = true) :
    serializeElement BuildMode.gil (PyObj.pylist []) st d = ([91, 93], none) ∧
    serializeElement BuildMode.gil (PyObj.pytuple []) st d = ([91, 93], none) ∧
    serializeElement BuildMode.gilDisabled (PyObj.pytuple []) st d
      = ([91, 93], none) ∧
    serializeElement BuildMode.gil (PyObj.pylist (v :: vs)) st d
      = ([], some SError.recursionLimit) ∧
    serializeElement BuildMode.gil (PyObj.pytuple (v :: vs)) st d
      = ([], some SError.recursionLimit) ∧
    serializeElement BuildMode.gilDisabled (PyObj.pylist (v :: vs)) st d
      = ([], some SError.recursionLimit) ∧
    serializeElement BuildMode.gilDisabled (PyObj.pytuple (v :: vs)) st d
      = ([], some SError.recursionLimit) := by
  refine ⟨?_, ?_, ?_, ?_, ?_, ?_, ?_⟩ <;>
    simp only [serializeElement, serializeDispatch, pyobject_to_obtype, objElems,
      zeroListSerialize, List.length_nil, List.length_cons, Nat.succ_ne_zero,
      beq_self_eq_true, if_true] <;>
    first
      | rfl
      | exact serialize_at_limit _ _ h

/-- Witness for C10 at depth 254 (next level is the limit 255): the
shortcut still emits the two bytes while a non-empty nested list fails. -/
theorem empty_shortcut_skips_depth_check_witness :
    serializeElement BuildMode.gil (PyObj.pylist []) ⟨0, 254⟩ none
      = ([91, 93], none) ∧
    serializeElement BuildMode.gil
        (PyObj.pylist [PyObj.infLeaf InfKind.noneTag [110, 117, 108, 108]])
        ⟨0, 254⟩ none
      = ([], some SError.recursionLimit) :=
  ⟨(empty_shortcut_skips_depth_check ⟨0, 254⟩ none
      (PyObj.infLeaf InfKind.noneTag [110, 117, 108, 108]) [] (by decide)).1,
   (empty_shortcut_skips_depth_check ⟨0, 254⟩ none
      (PyObj.infLeaf InfKind.noneTag [110, 117, 108, 108]) [] (by decide)).2.2.2.1⟩

/-- Witness for C9: two runs on a concrete container agree. -/
theorem serialize_deterministic_witness :
    (ListTupleSerializer.from_list [] ⟨0, 0⟩ none).serialize BuildMode.gil
      = (ListTupleSerializer.from_list [] ⟨0, 0⟩ none).serialize BuildMode.gil :=
  serialize_deterministic BuildMode.gil [] ⟨0, 0⟩ none _ _ rfl rfl

end OrjsonList
